import Mathlib

/-!
Verification of the polycodex auth-swap coordinator and usage-limits pipeline.

Shallow embedding of the TypeScript sources:
  * `src/src/lock.ts` (directory lock with owner record and stale reclamation),
  * `src/apps/cli/src/auth-swap.ts` (swap/capture/restore protocol; the copy in
    `src/src/authSwap.ts` is line-for-line the same protocol),
  * `src/apps/cli/src/limits-cache.ts` (TTL cache),
  * `src/apps/cli/src/usage/token-refresh.ts` and `src/apps/cli/src/usage/client.ts`
    (refresh-and-retry usage client and response parser),
  * `src/apps/cli/src/limits-service.ts` (per-account limits orchestrator) and
    `src/src/limits.ts` (row formatting).

File contents are byte lists; file systems are explicit state records; the
HTTP/RPC environment is a script of responses threaded through the functions.
JavaScript numbers are embedded as `Int` (every value the claims exercise is
integral); `Number(string)` coercion is embedded for optionally-signed decimal
integer strings, with non-numeric strings mapping to `none`.
-/

namespace Polycodex

/-- File contents, compared byte for byte. -/
abbrev Bytes := List Nat

/-! ## Lock Manager (`src/src/lock.ts`) -/

/-- Owner record stored in `owner.json` inside the lock directory. -/
structure AuthLockOwner where
  pid : Nat
  startedAt : String
  account : String
deriving DecidableEq, Repr

/-- Outcome of the `process.kill(pid, 0)` probe in `isPidRunning`: success,
failure with `EPERM` (permission denied), or failure with any other code
(such as `ESRCH`, no such process). -/
inductive KillProbe where
  | ok
  | eperm
  | other
deriving DecidableEq, Repr

/-- Embeds `isPidRunning` from `lock.ts`: the probe succeeding means alive, and a
permission-denied probe is also treated as alive (liveness cannot be
disproven); every other failure means dead. -/
def isPidRunning (probe : Nat → KillProbe) (pid : Nat) : Bool :=
  match probe pid with
  | .ok => true
  | .eperm => true
  | .other => false

/-- The `owner.json` file inside an existing lock directory, as `readOwner`
sees it: it may be missing, unreadable or unparseable, or a parsed record
whose three fields are each present with the right type or not. -/
inductive OwnerFile where
  | missing
  | unparseable
  | record (pid : Option Nat) (startedAt : Option String) (account : Option String)
deriving DecidableEq, Repr

/-- Embeds `readOwner` from `lock.ts`: any read or parse failure and any record
missing a numeric `pid`, string `startedAt` or string `account` yields
`undefined`; only a fully valid record is returned. -/
def readOwner : OwnerFile → Option AuthLockOwner
  | .missing => none
  | .unparseable => none
  | .record pid startedAt account =>
    match pid, startedAt, account with
    | some p, some s, some a => some ⟨p, s, a⟩
    | _, _, _ => none

/-- State of the lock directory: `none` means the directory does not exist;
`some f` means it exists and contains owner file `f`. -/
structure LockState where
  lockDir : Option OwnerFile
deriving DecidableEq, Repr

/-- Options of `acquireAuthLock`. -/
structure AcquireAuthLockOptions where
  account : String
  force : Bool
deriving DecidableEq, Repr

/-- Result of `acquireAuthLock`: either an acquired handle (with the owner
record it wrote) together with the resulting lock state, or the thrown
`Locked` error message together with the (untouched) lock state. -/
inductive AcquireResult where
  | acquired (owner : AuthLockOwner) (st : LockState)
  | locked (message : String) (st : LockState)
deriving DecidableEq, Repr

/-- Body of the `Locked` error message thrown by `acquireAuthLock`, naming the
owner account, pid and start time when the record was readable and
"unknown owner" otherwise. -/
def lockedWho : Option AuthLockOwner → String
  | some o => o.account ++ " (pid " ++ toString o.pid ++ ", started " ++ o.startedAt ++ ")"
  | none => "unknown owner"

/-- Full `Locked` error message of `acquireAuthLock`. -/
def lockedMessage (existingOwner : Option AuthLockOwner) : String :=
  "Auth swap is locked by " ++ lockedWho existingOwner ++
    ". Close the other multicodex-managed Codex session or run again with --force."

/-- Embeds `acquireAuthLock` from `lock.ts`. `selfPid` and `nowIso` stand for
`process.pid` and `new Date().toISOString()`. The atomic `mkdir` succeeds
exactly when the directory is absent; on success `writeOwner` stores this
process's record. When the directory exists, the existing owner is read;
a readable record with a dead pid, or `force`, removes the lock and re-runs
the loop, where (absent a concurrent contender, the only actor being this
process) the retried `mkdir` now succeeds; otherwise the `Locked` error is
thrown and the directory is left in place. -/
def acquireAuthLock (probe : Nat → KillProbe) (selfPid : Nat) (nowIso : String)
    (opts : AcquireAuthLockOptions) (st : LockState) : AcquireResult :=
  let owner : AuthLockOwner := ⟨selfPid, nowIso, opts.account⟩
  let winState : LockState :=
    ⟨some (.record (some owner.pid) (some owner.startedAt) (some owner.account))⟩
  match st.lockDir with
  | none => .acquired owner winState
  | some ownerFile =>
    match readOwner ownerFile with
    | some o =>
      if ¬ isPidRunning probe o.pid then .acquired owner winState
      else if opts.force then .acquired owner winState
      else .locked (lockedMessage (some o)) st
    | none =>
      if opts.force then .acquired owner winState
      else .locked (lockedMessage none) st

/-! ## Auth Swap Coordinator (`src/apps/cli/src/auth-swap.ts`) -/

/-- The file-system state the coordinator manipulates: the Active Credential
File (`defaultCodexAuthPath()`, `none` when absent / logged out) and each
account's Auth Snapshot (`accountAuthPath(account)`). -/
structure FsState where
  activeAuth : Option Bytes
  snapshots : String → Option Bytes

/-- Overwrite one account's snapshot entry (`none` models `safeUnlink`,
`some` models `writeFileAtomicBytes`). -/
def FsState.setSnapshot (st : FsState) (account : String) (v : Option Bytes) : FsState :=
  { st with snapshots := fun a => if a = account then v else st.snapshots a }

/-- Embeds `setDefaultAuthFromAccount`: copy the account's snapshot over the active
file, or delete the active file when the account has no snapshot. -/
def setDefaultAuthFromAccount (account : String) (st : FsState) : FsState :=
  match st.snapshots account with
  | none => { st with activeAuth := none }
  | some data => { st with activeAuth := some data }

/-- Embeds `snapshotDefaultAuthToAccount`: copy the current active file into the
account's snapshot, or delete the snapshot when the active file is absent. -/
def snapshotDefaultAuthToAccount (account : String) (st : FsState) : FsState :=
  match st.activeAuth with
  | none => st.setSnapshot account none
  | some data => st.setSnapshot account (some data)

/-- Outcome of the task run under `withAccountAuth`: a returned value or a
thrown error (its message). -/
inductive TaskOutcome (α : Type) where
  | ok (value : α)
  | err (message : String)

/-- A task run under `withAccountAuth`: it may read and rewrite the file
system (the wrapped tool may refresh the credential file while it runs) and
either returns a value or throws. -/
abbrev AuthTask (α : Type) := FsState → TaskOutcome α × FsState

/-- Combined state threaded through the coordinator. -/
structure SysState where
  fs : FsState
  lock : LockState

/-- Options of `withAccountAuth`. -/
structure WithAuthOptions where
  account : String
  forceLock : Bool
  restorePreviousAuth : Bool
deriving DecidableEq, Repr

/-- Result of `withAccountAuth`: the task's value, a propagated lock
acquisition error, or the task's propagated error, each with the final
state. -/
inductive SwapResult (α : Type) where
  | ok (value : α) (st : SysState)
  | lockFailed (message : String) (st : SysState)
  | taskFailed (message : String) (st : SysState)

/-- Final state of a `withAccountAuth` run, whatever its outcome. -/
def SwapResult.finalState {α : Type} : SwapResult α → SysState
  | .ok _ st => st
  | .lockFailed _ st => st
  | .taskFailed _ st => st

/-- Whether the run ended with the task's error propagating. -/
def SwapResult.isTaskFailed {α : Type} : SwapResult α → Bool
  | .taskFailed _ _ => true
  | _ => false

/-- The propagated error message of a failed run, if any. -/
def SwapResult.errMessage {α : Type} : SwapResult α → Option String
  | .ok _ _ => none
  | .lockFailed m _ => some m
  | .taskFailed m _ => some m

/-- Embeds `withAccountAuth` from `auth-swap.ts`. Steps in source order: acquire the
lock; if restoring, read the active file bytes; install the account's
snapshot as the active file; run the task; on normal return, capture the
active file back into the snapshot and, if restoring, write back (or unlink)
the previously read bytes. The `finally` block releases the lock on every
exit path; the capture and restore statements sit inside the `try` after the
task and therefore run only when the task returns normally. -/
def withAccountAuth {α : Type} (probe : Nat → KillProbe) (selfPid : Nat) (nowIso : String)
    (opts : WithAuthOptions) (task : AuthTask α) (st : SysState) : SwapResult α :=
  match acquireAuthLock probe selfPid nowIso ⟨opts.account, opts.forceLock⟩ st.lock with
  | .locked msg lockSt => .lockFailed msg { st with lock := lockSt }
  | .acquired _ _ =>
    let previous : Option Bytes :=
      if opts.restorePreviousAuth then st.fs.activeAuth else none
    let fs1 := setDefaultAuthFromAccount opts.account st.fs
    match task fs1 with
    | (.err e, fs2) =>
      .taskFailed e { fs := fs2, lock := ⟨none⟩ }
    | (.ok v, fs2) =>
      let fs3 := snapshotDefaultAuthToAccount opts.account fs2
      let fs4 :=
        if opts.restorePreviousAuth then
          match previous with
          | some data => { fs3 with activeAuth := some data }
          | none => { fs3 with activeAuth := none }
        else fs3
      .ok v { fs := fs4, lock := ⟨none⟩ }

/-- Result of the two lock-guarded one-shot operations. -/
inductive OpResult where
  | ok (st : SysState)
  | lockFailed (message : String) (st : SysState)

/-- Embeds `importDefaultAuthToAccount`: under the lock, snapshot the active file
into the account (capture only, no install, no restore). -/
def importDefaultAuthToAccount (probe : Nat → KillProbe) (selfPid : Nat) (nowIso : String)
    (account : String) (forceLock : Bool) (st : SysState) : OpResult :=
  match acquireAuthLock probe selfPid nowIso ⟨account, forceLock⟩ st.lock with
  | .locked msg lockSt => .lockFailed msg { st with lock := lockSt }
  | .acquired _ _ =>
    .ok { fs := snapshotDefaultAuthToAccount account st.fs, lock := ⟨none⟩ }

/-- Embeds `applyAccountAuthToDefault`: under the lock, install the account's
snapshot as the active file (install only, no capture, no restore). -/
def applyAccountAuthToDefault (probe : Nat → KillProbe) (selfPid : Nat) (nowIso : String)
    (account : String) (forceLock : Bool) (st : SysState) : OpResult :=
  match acquireAuthLock probe selfPid nowIso ⟨account, forceLock⟩ st.lock with
  | .locked msg lockSt => .lockFailed msg { st with lock := lockSt }
  | .acquired _ _ =>
    .ok { fs := setDefaultAuthFromAccount account st.fs, lock := ⟨none⟩ }

/-! ## Usage snapshot parser (`src/apps/cli/src/usage/parser.ts` and `json.ts`) -/

/-- JSON leaf value as the parser's `readNumber` / `readBoolean` helpers see
it. JavaScript numbers are embedded as `Int`: every numeric value the claims
exercise is integral. -/
inductive JVal where
  | num (n : Int)
  | str (s : String)
  | boolean (b : Bool)
  | null
deriving DecidableEq, Repr

/-- Digits of an unsigned decimal literal folded into a `Nat`; any non-digit
character rejects the string. -/
def decDigitsToNat : List Char → Nat → Option Nat
  | [], acc => some acc
  | c :: rest, acc =>
    if c.isDigit then decDigitsToNat rest (acc * 10 + (c.toNat - 48)) else none

/-- Embeds `Number(string)` coercion restricted to optionally-signed decimal integer
strings (the only shape the provider's headers and the claims use); any other
string maps to `none`, standing for `NaN` and rejection by
`Number.isFinite`. -/
def parseIntString (s : String) : Option Int :=
  match s.toList with
  | [] => none
  | '-' :: rest =>
    match rest with
    | [] => none
    | _ => (decDigitsToNat rest 0).map (fun n => -(n : Int))
  | cs => (decDigitsToNat cs 0).map (fun n => (n : Int))

/-- Embeds `readNumber` from `json.ts`: a finite number is returned as is; a string
is coerced with `Number`; everything else (booleans, null, absent) is
rejected. -/
def readNumber : Option JVal → Option Int
  | some (.num n) => some n
  | some (.str s) => parseIntString s
  | _ => none

/-- Embeds `readBoolean` from `json.ts`: only actual booleans pass. -/
def readBoolean : Option JVal → Option Bool
  | some (.boolean b) => some b
  | _ => none

/-- Response headers as a key-value list; `get` is lookup on the exact
(lower-case) header names the code uses. -/
abbrev HeaderMap := List (String × String)

/-- Embeds `headers.get(name)` on the header map. -/
def headerGet : HeaderMap → String → Option String
  | [], _ => none
  | (k, v) :: rest, name => if k = name then some v else headerGet rest name

/-- One rolling window of the parsed usage snapshot (`codex-rpc.ts`). -/
structure RateLimitWindow where
  usedPercent : Option Int
  windowDurationMins : Option Int
  resetsAt : Option Int
deriving DecidableEq, Repr

/-- Parsed credit balance / flags (`codex-rpc.ts`). -/
structure CreditsSnapshot where
  hasCredits : Option Bool
  unlimited : Option Bool
  balance : Option String
deriving DecidableEq, Repr

/-- Provider-agnostic parsed usage snapshot (`codex-rpc.ts`). -/
structure RateLimitSnapshot where
  primary : Option RateLimitWindow
  secondary : Option RateLimitWindow
  credits : Option CreditsSnapshot
deriving DecidableEq, Repr

/-- One window object of the usage response body; each field is a JSON value
or absent. -/
structure WindowData where
  used_percent : Option JVal
  limit_window_seconds : Option JVal
  reset_at : Option JVal
  reset_after_seconds : Option JVal
deriving DecidableEq, Repr

/-- The `rate_limit` / `code_review_rate_limit` objects of the body. -/
structure RateLimitData where
  primary_window : Option WindowData
  secondary_window : Option WindowData
deriving DecidableEq, Repr

/-- The `credits` object of the body. -/
structure CreditsData where
  balance : Option JVal
  has_credits : Option JVal
  unlimited : Option JVal
deriving DecidableEq, Repr

/-- Parsed usage response body (`UsageApiResponseData`); `none` fields model
absent or non-record values for which `asRecord` yields `null`. -/
structure UsageData where
  rate_limit : Option RateLimitData
  code_review_rate_limit : Option RateLimitData
  credits : Option CreditsData
deriving DecidableEq, Repr

/-- Five-hour window fallback duration (minutes). -/
def FIVE_HOURS_MINS : Int := 300

/-- Weekly window fallback duration (minutes). -/
def WEEKLY_MINS : Int := 7 * 24 * 60

/-- Embeds `buildWindow` from `parser.ts`: a window with all three fields absent is
dropped. -/
def buildWindow (usedPercent windowDurationMins resetsAt : Option Int) :
    Option RateLimitWindow :=
  if usedPercent = none ∧ windowDurationMins = none ∧ resetsAt = none then none
  else some ⟨usedPercent, windowDurationMins, resetsAt⟩

/-- Embeds `readDurationMins` from `parser.ts`: a positive `limit_window_seconds` is
rounded to minutes (`Math.round`, at least 1); otherwise the per-window
fallback applies. `Math.round x = ⌊x + 1/2⌋`, so for positive `s` the rounded
quotient is `⌊(s + 30) / 60⌋`. -/
def readDurationMins (window : Option WindowData) (fallbackMins : Int) : Int :=
  match readNumber (window.bind (fun w => w.limit_window_seconds)) with
  | some s => if s > 0 then max 1 ((s + 30).fdiv 60) else fallbackMins
  | none => fallbackMins

/-- Embeds `readResetsAt` from `parser.ts`: an absolute `reset_at` wins; otherwise a
relative `reset_after_seconds` is added to the request time. -/
def readResetsAt (window : Option WindowData) (nowSec : Int) : Option Int :=
  match readNumber (window.bind (fun w => w.reset_at)) with
  | some resetAt => some resetAt
  | none =>
    match readNumber (window.bind (fun w => w.reset_after_seconds)) with
    | some resetAfter => some (nowSec + resetAfter)
    | none => none

/-- Embeds `parseUsageSnapshotFromWhamResponse` from `parser.ts`: headers win over
body fields for used-percent; the secondary window falls back to the code
review window; durations default per window; credits come from header or
body balance plus the body flags. -/
def parseUsageSnapshotFromWhamResponse (headers : HeaderMap) (data : UsageData)
    (nowMs : Int) : RateLimitSnapshot :=
  let nowSec := nowMs.fdiv 1000
  let rateLimit := data.rate_limit
  let primaryWindow := rateLimit.bind (fun r => r.primary_window)
  let secondaryWindow := rateLimit.bind (fun r => r.secondary_window)
  let reviewWindow := data.code_review_rate_limit.bind (fun r => r.primary_window)
  let headerPrimary := readNumber ((headerGet headers "x-codex-primary-used-percent").map .str)
  let headerSecondary := readNumber ((headerGet headers "x-codex-secondary-used-percent").map .str)
  let primary := buildWindow
    (headerPrimary <|> readNumber (primaryWindow.bind (fun w => w.used_percent)))
    (some (readDurationMins primaryWindow FIVE_HOURS_MINS))
    (readResetsAt primaryWindow nowSec)
  let secondaryCandidate := secondaryWindow <|> reviewWindow
  let secondary := buildWindow
    (headerSecondary <|> readNumber (secondaryWindow.bind (fun w => w.used_percent))
      <|> readNumber (reviewWindow.bind (fun w => w.used_percent)))
    (some (readDurationMins secondaryCandidate WEEKLY_MINS))
    (readResetsAt secondaryCandidate nowSec)
  let bodyCredits := data.credits
  let creditsFromHeader := readNumber ((headerGet headers "x-codex-credits-balance").map .str)
  let creditsFromBody := readNumber (bodyCredits.bind (fun c => c.balance))
  let hasCredits := readBoolean (bodyCredits.bind (fun c => c.has_credits))
  let unlimited := readBoolean (bodyCredits.bind (fun c => c.unlimited))
  let credits : Option CreditsSnapshot :=
    if creditsFromHeader.isSome ∨ creditsFromBody.isSome
        ∨ hasCredits.isSome ∨ unlimited.isSome then
      some ⟨hasCredits, unlimited,
        match creditsFromHeader with
        | some n => some (toString n)
        | none =>
          match creditsFromBody with
          | some n => some (toString n)
          | none => none⟩
    else none
  ⟨primary, secondary, credits⟩

/-! ## Limits Cache (`src/apps/cli/src/limits-cache.ts`) -/

/-- Provider tag stored with a cache entry. -/
inductive CachedLimitsProvider where
  | api
  | rpc
deriving DecidableEq, Repr

/-- One stored cache entry: snapshot, fetch timestamp (epoch ms) and optional
provider tag. -/
structure CacheEntry where
  snapshot : RateLimitSnapshot
  fetchedAt : Int
  provider : Option CachedLimitsProvider
deriving DecidableEq, Repr

/-- The parsed cache document's `accounts` map, as a keyed entry list. -/
structure LimitsCacheData where
  accounts : List (String × CacheEntry)
deriving DecidableEq, Repr

/-- The cache file on disk as `loadCache` classifies it: missing
(`safeReadFileUtf8` returned `undefined`), corrupt (JSON parse failure or a
document failing the `version === 1 && accounts` shape check), or a valid
version-1 document. -/
inductive CacheFile where
  | missing
  | corrupt
  | valid (cache : LimitsCacheData)
deriving DecidableEq, Repr

/-- Embeds `loadCache`: a missing or corrupt file reads as the empty cache; parse
failure is never fatal. -/
def loadCache : CacheFile → LimitsCacheData
  | .missing => ⟨[]⟩
  | .corrupt => ⟨[]⟩
  | .valid c => c

/-- Lookup of `cache.accounts[account]`. -/
def lookupAccount : List (String × CacheEntry) → String → Option CacheEntry
  | [], _ => none
  | (k, v) :: rest, account => if k = account then some v else lookupAccount rest account

/-- Successful `getCachedLimits` payload: the stored snapshot, its elapsed
age and its provider tag. -/
structure CachedHit where
  snapshot : RateLimitSnapshot
  ageMs : Int
  provider : Option CachedLimitsProvider
deriving DecidableEq, Repr

/-- Embeds `getCachedLimits`: load the cache, look the account up, and return the
entry only when its elapsed age does not exceed the caller's TTL. The second
component is the cache file after the call — the function only reads, so it
is returned unchanged (there is no `saveCache` on this path). -/
def getCachedLimits (file : CacheFile) (account : String) (ttlMs : Int) (nowMs : Int) :
    Option CachedHit × CacheFile :=
  let cache := loadCache file
  match lookupAccount cache.accounts account with
  | none => (none, file)
  | some entry =>
    let ageMs := nowMs - entry.fetchedAt
    if ageMs > ttlMs then (none, file)
    else (some ⟨entry.snapshot, ageMs, entry.provider⟩, file)

/-- Insert-or-replace on the cache's keyed entry list, preserving the
JavaScript object's insertion order. -/
def setAccountEntry : List (String × CacheEntry) → String → CacheEntry →
    List (String × CacheEntry)
  | [], account, e => [(account, e)]
  | (k, v) :: rest, account, e =>
    if k = account then (account, e) :: rest
    else (k, v) :: setAccountEntry rest account e

/-- Live source tag passed to `setCachedLimits`. -/
inductive LiveLimitsSource where
  | liveApi
  | liveRpc
deriving DecidableEq, Repr

/-- Embeds `setCachedLimits`: load, overwrite the account's entry with the fresh
snapshot, timestamp and provider tag, and save. -/
def setCachedLimits (file : CacheFile) (account : String) (snapshot : RateLimitSnapshot)
    (source : LiveLimitsSource) (nowMs : Int) : CacheFile :=
  let cache := loadCache file
  let provider : CachedLimitsProvider :=
    match source with
    | .liveApi => .api
    | .liveRpc => .rpc
  .valid ⟨setAccountEntry cache.accounts account ⟨snapshot, nowMs, some provider⟩⟩

/-! ## Token Refresh & Usage Client
(`src/apps/cli/src/usage/token-refresh.ts`, `client.ts`) -/

/-- The `tokens` object of the credential payload. -/
structure AuthTokens where
  access_token : Option String
  refresh_token : Option String
  account_id : Option String
  id_token : Option String
deriving DecidableEq, Repr

/-- Credential payload (`CodexAuthPayload`). `last_refresh` is the stored
ISO timestamp after `Date.parse`: `none` models an absent, blank or
unparseable value, `some t` a parsed epoch-milliseconds time. -/
structure CodexAuthPayload where
  tokens : Option AuthTokens
  OPENAI_API_KEY : Option String
  last_refresh : Option Int
deriving DecidableEq, Repr

/-- Proactive staleness window of `needsRefresh` (8 days, in ms). -/
def REFRESH_AGE_MS : Int := 8 * 24 * 60 * 60 * 1000

/-- Embeds `needsRefresh` from `token-refresh.ts`: refresh proactively when the
stored timestamp is absent/unparseable or older than the staleness
window. -/
def needsRefresh (auth : CodexAuthPayload) (nowMs : Int) : Bool :=
  match auth.last_refresh with
  | none => true
  | some t => nowMs - t > REFRESH_AGE_MS

/-- Embeds `tokenErrorFromRefreshCode`: the user-facing terminal message for a
recognized OAuth error code, with a generic fallback. -/
def tokenErrorFromRefreshCode (code : Option String) : String :=
  if code = some "refresh_token_expired" then
    "Session expired. Run `codex` to log in again."
  else if code = some "refresh_token_reused" then
    "Token conflict. Run `codex` to log in again."
  else if code = some "refresh_token_invalidated" then
    "Token revoked. Run `codex` to log in again."
  else "Token expired. Run `codex` to log in again."

/-- Parsed body of a refresh response. `error_code` collapses the source's
`body.error.code ?? body.error ?? body.code` extraction. -/
structure RefreshBody where
  error_code : Option String
  access_token : Option String
  refresh_token : Option String
  id_token : Option String
deriving DecidableEq, Repr

/-- An HTTP exchange as the scripted environment delivers it: the fetch
rejected (network failure or abort, carrying its message) or a response. -/
inductive HttpResult (α : Type) where
  | netError (message : String)
  | resp (r : α)
deriving DecidableEq, Repr

/-- A refresh response: status and parsed JSON body (`none` when the body is
empty, invalid or not a record). -/
structure RefreshResponse where
  status : Nat
  body : Option RefreshBody
deriving DecidableEq, Repr

/-- A usage response: status, headers and parsed JSON body. -/
structure UsageResponse where
  status : Nat
  headers : HeaderMap
  body : Option UsageData
deriving DecidableEq, Repr

/-- State threaded through one usage-client run: the scripted responses still
pending on each endpoint, the number of HTTP calls issued to each endpoint so
far, and the credential payload as persisted so far. -/
structure ClientSt where
  usageScript : List (HttpResult UsageResponse)
  refreshScript : List (HttpResult RefreshResponse)
  usageCalls : Nat
  refreshCalls : Nat
  auth : CodexAuthPayload
deriving DecidableEq, Repr

/-- Issue one usage-endpoint request, consuming the next scripted exchange
(an exhausted script behaves as a network failure). -/
def popUsage (st : ClientSt) : HttpResult UsageResponse × ClientSt :=
  match st.usageScript with
  | [] => (.netError "fetch failed", { st with usageCalls := st.usageCalls + 1 })
  | h :: rest =>
    (h, { st with usageScript := rest, usageCalls := st.usageCalls + 1 })

/-- Issue one refresh-endpoint request, consuming the next scripted exchange
(an exhausted script behaves as a network failure). -/
def popRefresh (st : ClientSt) : HttpResult RefreshResponse × ClientSt :=
  match st.refreshScript with
  | [] => (.netError "fetch failed", { st with refreshCalls := st.refreshCalls + 1 })
  | h :: rest =>
    (h, { st with refreshScript := rest, refreshCalls := st.refreshCalls + 1 })

/-- Embeds `fetchUsage` from `client.ts`: a rejected fetch propagates as a thrown
error; a response (whatever its status) is returned. -/
def fetchUsageM (st : ClientSt) : Except String UsageResponse × ClientSt :=
  match popUsage st with
  | (.netError msg, st') => (.error msg, st')
  | (.resp r, st') => (.ok r, st')

/-- Embeds `refreshToken` from `token-refresh.ts`. No stored refresh token: return
`null` without an HTTP call. A network failure of the refresh request is
caught and returns `null` ("refresh unavailable"). A 400/401 response throws
the recognized terminal message. Any other non-2xx, an invalid body or a
missing `access_token` return `null`. On success the new tokens and a fresh
`last_refresh` are persisted (`persistAuth`, modeled as the `auth` field
update) and the new access token is returned. -/
def refreshTokenM (nowMs : Int) (st : ClientSt) : Except String (Option String) × ClientSt :=
  match st.auth.tokens.bind (fun t => t.refresh_token) with
  | none => (.ok none, st)
  | some _ =>
    match popRefresh st with
    | (.netError _, st') => (.ok none, st')
    | (.resp r, st') =>
      if r.status = 400 ∨ r.status = 401 then
        (.error (tokenErrorFromRefreshCode (r.body.bind (fun b => b.error_code))), st')
      else if r.status < 200 ∨ r.status ≥ 300 then (.ok none, st')
      else
        match r.body with
        | none => (.ok none, st')
        | some body =>
          match body.access_token with
          | none => (.ok none, st')
          | some nextAccess =>
            let tokens0 := st'.auth.tokens.getD ⟨none, none, none, none⟩
            let tokens1 : AuthTokens :=
              { tokens0 with
                access_token := some nextAccess
                refresh_token :=
                  match body.refresh_token with
                  | some rt => some rt
                  | none => tokens0.refresh_token
                id_token :=
                  match body.id_token with
                  | some idt => some idt
                  | none => tokens0.id_token }
            (.ok (some nextAccess),
              { st' with auth := { st'.auth with tokens := some tokens1, last_refresh := some nowMs } })

/-- Final response handling of `fetchRateLimitsViaApiForAuthState` (the
checks after the retry block): a still-unauthorized response is terminal, any
other non-2xx fails generically, an unparseable body fails, and a 2xx body is
parsed together with the headers. -/
def finishUsageResponse (r : UsageResponse) (nowMs : Int) (st : ClientSt) :
    Except String RateLimitSnapshot × ClientSt :=
  if r.status = 401 ∨ r.status = 403 then
    (.error "Token expired. Run `codex` to log in again.", st)
  else if r.status < 200 ∨ r.status ≥ 300 then
    (.error ("Usage request failed (HTTP " ++ toString r.status ++ "). Try again later."), st)
  else
    match r.body with
    | none => (.error "Usage response invalid. Try again later.", st)
    | some data => (.ok (parseUsageSnapshotFromWhamResponse r.headers data nowMs), st)

/-- Embeds `fetchRateLimitsViaApiForAuthState` from `client.ts`. A missing (or, per
JavaScript falsiness, empty) access token fails immediately, distinguishing
the API-key-only case. A stale `last_refresh` triggers one proactive refresh.
The usage request is issued; on 401/403 the token is refreshed once and, only
when the refresh yielded a token, the request is retried exactly once more.
The final response then goes through the terminal checks. -/
def fetchRateLimitsViaApiForAuthState (nowMs : Int) (st : ClientSt) :
    Except String RateLimitSnapshot × ClientSt :=
  let auth := st.auth
  let accessTokenValue : Option String :=
    match auth.tokens.bind (fun t => t.access_token) with
    | some s => if s.length > 0 then some s else none
    | none => none
  match accessTokenValue with
  | none =>
    if (auth.OPENAI_API_KEY.getD "").length > 0 then
      (.error "Usage not available for API key.", st)
    else (.error "Not logged in. Run `codex` to authenticate.", st)
  | some _ =>
    let step1 :=
      if needsRefresh auth nowMs then refreshTokenM nowMs st
      else (Except.ok none, st)
    match step1 with
    | (.error e, st1) => (.error e, st1)
    | (.ok _, st1) =>
      match fetchUsageM st1 with
      | (.error e, st2) => (.error e, st2)
      | (.ok resp1, st2) =>
        if resp1.status = 401 ∨ resp1.status = 403 then
          match refreshTokenM nowMs st2 with
          | (.error e, st3) => (.error e, st3)
          | (.ok none, st3) => finishUsageResponse resp1 nowMs st3
          | (.ok (some _), st3) =>
            match fetchUsageM st3 with
            | (.error e, st4) => (.error e, st4)
            | (.ok resp2, st4) => finishUsageResponse resp2 nowMs st4
        else finishUsageResponse resp1 nowMs st2

/-! ## Limits rows (`src/src/limits.ts`) -/

/-- One rendered limits table row. -/
structure LimitsRow where
  account : String
  fiveHour : String
  fiveReset : String
  weekly : String
  weeklyReset : String
  credits : String
  source : String
deriving DecidableEq, Repr

/-- Embeds `formatPercent`: integral percents render as `n%`
(`Math.round(v * 10) / 10 = v` on integers); an absent value renders as
`-`. -/
def formatPercent : Option Int → String
  | none => "-"
  | some v => toString v ++ "%"

/-- Embeds `formatReset` renders a falsy (absent or zero) reset time as `-`. The
source renders other values as a local `mm-dd hh:mm` string, which depends on
the host timezone; the embedding renders the raw epoch seconds instead. No
claim inspects the rendered text. -/
def formatReset : Option Int → String
  | none => "-"
  | some t => if t = 0 then "-" else "@" ++ toString t

/-- Which of the snapshot's two windows a slot of `pickWindows` holds. The
source compares window object references (`primary !== weekly`); provenance
tracking reproduces that reference comparison exactly. -/
inductive WinSel where
  | prim
  | sec
deriving DecidableEq, Repr

/-- Embeds `pickWindows` from `limits.ts`: a window whose duration is 300 minutes is
the five-hour slot and one of 10080 minutes the weekly slot (the secondary
window winning ties); an unclassified primary falls back into a free
five-hour slot and an unclassified secondary into a free weekly slot, unless
the same object already occupies the other slot. -/
def pickWindows (snapshot : RateLimitSnapshot) :
    Option RateLimitWindow × Option RateLimitWindow :=
  let primary := snapshot.primary
  let secondary := snapshot.secondary
  let hasDuration := fun (w : Option RateLimitWindow) (d : Int) =>
    match w with
    | some win => win.windowDurationMins == some d
    | none => false
  let fiveSel : Option WinSel :=
    if hasDuration secondary 300 then some .sec
    else if hasDuration primary 300 then some .prim
    else none
  let weeklySel : Option WinSel :=
    if hasDuration secondary 10080 then some .sec
    else if hasDuration primary 10080 then some .prim
    else none
  let fiveSel2 : Option WinSel :=
    if fiveSel = none ∧ primary.isSome ∧ weeklySel ≠ some .prim then some .prim
    else fiveSel
  let weeklySel2 : Option WinSel :=
    if weeklySel = none ∧ secondary.isSome ∧ fiveSel2 ≠ some .sec then some .sec
    else weeklySel
  let resolve : Option WinSel → Option RateLimitWindow := fun sel =>
    match sel with
    | some .prim => primary
    | some .sec => secondary
    | none => none
  (resolve fiveSel2, resolve weeklySel2)

/-- Embeds `formatCredits`: `unlimited` wins, an explicit `hasCredits: false`
renders `none`, a truthy (nonempty) balance string renders itself. -/
def formatCredits : Option CreditsSnapshot → String
  | none => "-"
  | some c =>
    if c.unlimited = some true then "unlimited"
    else if c.hasCredits = some false then "none"
    else
      match c.balance with
      | some b => if b.length > 0 then b else "-"
      | none => "-"

/-- Embeds `rateLimitsToRow` from `limits.ts`. -/
def rateLimitsToRow (snapshot : RateLimitSnapshot) (account source : String) : LimitsRow :=
  let picked := pickWindows snapshot
  let five := picked.1
  let weekly := picked.2
  ⟨account,
    (match five with
      | some w => formatPercent w.usedPercent
      | none => "-"),
    (match five with
      | some w => formatReset w.resetsAt
      | none => "-"),
    (match weekly with
      | some w => formatPercent w.usedPercent
      | none => "-"),
    (match weekly with
      | some w => formatReset w.resetsAt
      | none => "-"),
    formatCredits snapshot.credits,
    source⟩

/-! ## Limits Fetch Orchestrator (`src/apps/cli/src/limits-service.ts`) -/

/-- Provider preference of a limits query. -/
inductive LimitsProvider where
  | auto
  | api
  | rpc
deriving DecidableEq, Repr

/-- One entry of the `results` list: account, source text, provider tag
(`"api"`, `"rpc"` or `"cached"`), snapshot and cache age. -/
structure LimitsResultEntry where
  account : String
  source : String
  provider : String
  snapshot : Option RateLimitSnapshot
  ageSec : Option Int
deriving DecidableEq, Repr

/-- One entry of the `errors` list. -/
structure LimitsErrorEntry where
  account : String
  message : String
deriving DecidableEq, Repr

/-- Per-account intermediate outcome, mirroring the optional fields of the
source's `AccountLimitsOutcome` object literals. -/
structure AccountLimitsOutcome where
  account : String
  row : Option LimitsRow
  result : Option LimitsResultEntry
  cacheWrite : Option (RateLimitSnapshot × LiveLimitsSource)
  apiError : Option String
  error : Option String
deriving DecidableEq, Repr

/-- The environment one limits query runs against: the cache file as read
during the query, the clock, and the two per-account fetchers.
`api account` stands for the whole
`fetchRateLimitsViaApiForAuthPath(accountAuthPath(account))` call and
`rpcUnderAuth account` for the whole
`withAccountAuth({account, restorePreviousAuth: true}, fetchRateLimitsViaRpc)`
call; each resolves with a snapshot or rejects with an error message, and
each depends only on its own account's snapshot, credentials and
subprocess. -/
structure LimitsEnv where
  cacheFile : CacheFile
  nowMs : Int
  api : String → Except String RateLimitSnapshot
  rpcUnderAuth : String → Except String RateLimitSnapshot

/-- Provider tag rendered for a cached result (`cached.provider ?? "cached"`). -/
def cachedProviderStr : Option CachedLimitsProvider → String
  | some .api => "api"
  | some .rpc => "rpc"
  | none => "cached"

/-- Embeds `Math.round(ageMs / 1000)` on integral milliseconds. -/
def roundMsToSec (ms : Int) : Int := (ms + 500).fdiv 1000

/-- The outcome built from a cache hit (both modes build the same object). -/
def cachedOutcome (account : String) (hit : CachedHit) : AccountLimitsOutcome :=
  let ageSec := roundMsToSec hit.ageMs
  let p := cachedProviderStr hit.provider
  { account := account
    row := some (rateLimitsToRow hit.snapshot account
      ("cached " ++ p ++ " " ++ toString ageSec ++ "s"))
    result := some ⟨account, "cached", p, some hit.snapshot, some ageSec⟩
    cacheWrite := none
    apiError := none
    error := none }

/-- The cache consultation both branches start with: only when caching is
enabled, and only a hit within the TTL short-circuits. -/
def cacheProbe (env : LimitsEnv) (useCache : Bool) (ttlMs : Int) (account : String) :
    Option CachedHit :=
  if useCache then (getCachedLimits env.cacheFile account ttlMs env.nowMs).1 else none

/-- One account of the API pass (`api` and `auto` modes): cache hit, else the
API fetch; an API failure becomes a pending `apiError` in `auto` mode and a
final error in `api` mode. -/
def apiAccountOutcome (env : LimitsEnv) (provider : LimitsProvider) (useCache : Bool)
    (ttlMs : Int) (account : String) : AccountLimitsOutcome :=
  match cacheProbe env useCache ttlMs account with
  | some hit => cachedOutcome account hit
  | none =>
    match env.api account with
    | .ok snapshot =>
      { account := account
        row := some (rateLimitsToRow snapshot account "live-api")
        result := some ⟨account, "live-api", "api", some snapshot, none⟩
        cacheWrite := some (snapshot, .liveApi)
        apiError := none
        error := none }
    | .error e =>
      if provider = .auto then ⟨account, none, none, none, some e, none⟩
      else ⟨account, none, none, none, none, some e⟩

/-- One account of `rpc` mode: cache hit, else the RPC fetch under swapped
auth (`fetchLiveLimits` with provider `rpc` returns source `live-rpc`); any
thrown error becomes that account's error outcome. -/
def rpcAccountOutcome (env : LimitsEnv) (useCache : Bool) (ttlMs : Int)
    (account : String) : AccountLimitsOutcome :=
  match cacheProbe env useCache ttlMs account with
  | some hit => cachedOutcome account hit
  | none =>
    match env.rpcUnderAuth account with
    | .ok snapshot =>
      { account := account
        row := some (rateLimitsToRow snapshot account "live-rpc")
        result := some ⟨account, "live-rpc", "rpc", some snapshot, none⟩
        cacheWrite := some (snapshot, .liveRpc)
        apiError := none
        error := none }
    | .error e => ⟨account, none, none, none, none, some e⟩

/-- The final outcome `executeLimitsQuery` records for one account. In `auto`
mode the second pass resolves every pending `apiError` through the RPC
fallback, reporting both messages when both providers failed. The fetchers
are pure per-account functions, so the source's concurrent API pass followed
by the sequential fallback pass computes exactly this value for each
account. -/
def perAccountOutcome (env : LimitsEnv) (provider : LimitsProvider) (useCache : Bool)
    (ttlMs : Int) (account : String) : AccountLimitsOutcome :=
  match provider with
  | .rpc => rpcAccountOutcome env useCache ttlMs account
  | .api => apiAccountOutcome env .api useCache ttlMs account
  | .auto =>
    let first := apiAccountOutcome env .auto useCache ttlMs account
    match first.apiError with
    | none => first
    | some apiMsg =>
      match env.rpcUnderAuth account with
      | .ok snapshot =>
        { account := account
          row := some (rateLimitsToRow snapshot account "live-rpc")
          result := some ⟨account, "live-rpc", "rpc", some snapshot, none⟩
          cacheWrite := some (snapshot, .liveRpc)
          apiError := none
          error := none }
      | .error rpcMsg =>
        ⟨account, none, none, none, none,
          some ("API failed (" ++ apiMsg ++ "); RPC fallback failed (" ++ rpcMsg ++ ")")⟩

/-- Aggregated result of `executeLimitsQuery`, together with the cache file
after the trailing `setCachedLimits` writes. -/
structure LimitsExecution where
  rows : List LimitsRow
  results : List LimitsResultEntry
  errors : List LimitsErrorEntry
  hadError : Bool
  finalCache : CacheFile

/-- One step of the final collection loop of `executeLimitsQuery`: apply the
account's pending cache write, then append its row, result and error entries
to the aggregate. -/
def collectOutcome (env : LimitsEnv) (provider : LimitsProvider) (useCache : Bool)
    (ttlMs : Int) (acc : LimitsExecution) (account : String) : LimitsExecution :=
  let outcome := perAccountOutcome env provider useCache ttlMs account
  { rows := acc.rows ++
      (match outcome.row with
        | some r => [r]
        | none => [])
    results := acc.results ++
      (match outcome.result with
        | some r => [r]
        | none => [])
    errors := acc.errors ++
      (match outcome.error with
        | some e => [⟨account, e⟩]
        | none => [])
    hadError := acc.hadError || outcome.error.isSome
    finalCache :=
      match outcome.cacheWrite with
      | some (snapshot, source) =>
        setCachedLimits acc.finalCache account snapshot source env.nowMs
      | none => acc.finalCache }

/-- Embeds `executeLimitsQuery` from `limits-service.ts`: compute every requested
account's outcome (cache, API, RPC or fallback as the provider preference
dictates), then fold the final loop over the requested accounts in order. -/
def executeLimitsQuery (env : LimitsEnv) (provider : LimitsProvider)
    (targets : List String) (useCache : Bool) (ttlMs : Int) : LimitsExecution :=
  targets.foldl (collectOutcome env provider useCache ttlMs)
    ⟨[], [], [], false, env.cacheFile⟩

/-! ## List helpers used to state the orchestrator's per-account outcome -/

/-- The zero-or-one-element list an optional field contributes to the final
`rows` / `results` aggregation. -/
def optList {α : Type} : Option α → List α
  | some a => [a]
  | none => []

/-- The zero-or-one-element error list an outcome contributes to `errors`. -/
def errList (account : String) : Option String → List LimitsErrorEntry
  | some e => [⟨account, e⟩]
  | none => []

/-! ## Concrete inputs used by counterexamples and witnesses -/

/-- A liveness oracle under which every probed pid is dead (`ESRCH`). -/
def probeDead : Nat → KillProbe := fun _ => .other

/-- A liveness oracle under which every probed pid is alive. -/
def probeAlive : Nat → KillProbe := fun _ => .ok

/-- A file system with active credential bytes `[1]` and a snapshot `[2]`
stored for account `work`. -/
def fsPre : FsState :=
  ⟨some [1], fun a => if a = "work" then some [2] else none⟩

/-- System state before a coordinated operation: `fsPre` with no lock held. -/
def sysPre : SysState := ⟨fsPre, ⟨none⟩⟩

/-- A task that rewrites the active credential file to `[9]` (as the wrapped
tool does when it refreshes a token) and then throws. -/
def taskRefreshThenThrow : AuthTask Nat :=
  fun fs => (.err "boom", { fs with activeAuth := some [9] })

/-- A task that throws without touching any file. -/
def taskErrPlain : AuthTask Nat := fun fs => (.err "boom", fs)

/-- A task that returns 0 without touching any file. -/
def taskOkPlain : AuthTask Nat := fun fs => (.ok 0, fs)

/-- Headers of the C9 scenario: `x-codex-primary-used-percent: 25`. -/
def c9Headers : HeaderMap := [("x-codex-primary-used-percent", "25")]

/-- Body of the C9 scenario: `rate_limit.primary_window.used_percent: 10`. -/
def c9Data : UsageData :=
  { rate_limit := some
      { primary_window := some
          { used_percent := some (.num 10)
            limit_window_seconds := none
            reset_at := none
            reset_after_seconds := none }
        secondary_window := none }
    code_review_rate_limit := none
    credits := none }

/-- A credential payload with access and refresh tokens whose `last_refresh`
is current at time 0 (no proactive refresh triggers). -/
def authFresh : CodexAuthPayload :=
  ⟨some ⟨some "tokA", some "refA", some "acc-1", none⟩, none, some 0⟩

/-- A 401 usage response. -/
def usage401 : UsageResponse := ⟨401, [], none⟩

/-- A 403 usage response. -/
def usage403 : UsageResponse := ⟨403, [], none⟩

/-- A 200 usage response carrying the C9 headers and body. -/
def usage200 : UsageResponse := ⟨200, c9Headers, some c9Data⟩

/-- A successful refresh response delivering a new token pair. -/
def refreshOk : RefreshResponse := ⟨200, some ⟨none, some "tokB", some "refB", none⟩⟩

/-- Client run script: first usage attempt 401, then 200; surplus responses
remain on both scripts so that call counts prove no further request or
refresh was issued. -/
def clientStRetryOk : ClientSt :=
  ⟨[.resp usage401, .resp usage200, .resp usage200],
    [.resp refreshOk, .resp refreshOk], 0, 0, authFresh⟩

/-- Client run script: 401 on both attempts, surplus responses remaining. -/
def clientStRetry401 : ClientSt :=
  ⟨[.resp usage401, .resp usage401, .resp usage200],
    [.resp refreshOk, .resp refreshOk], 0, 0, authFresh⟩

/-- Client run script: 403 on both attempts, surplus responses remaining. -/
def clientStRetry403 : ClientSt :=
  ⟨[.resp usage403, .resp usage403, .resp usage200],
    [.resp refreshOk, .resp refreshOk], 0, 0, authFresh⟩

/-- A small parsed snapshot used in cache and orchestrator witnesses. -/
def snapA : RateLimitSnapshot := ⟨some ⟨some 5, some 300, none⟩, none, none⟩

/-- A cache file holding one entry for account `a`, fetched at time 1000 and
tagged `api`. -/
def file8 : CacheFile := .valid ⟨[("a", ⟨snapA, 1000, some .api⟩)]⟩

/-- An orchestrator environment in which account `x`'s API fetch fails but
its RPC fallback succeeds, while account `y`'s API fetch succeeds. -/
def env0 : LimitsEnv :=
  { cacheFile := .missing
    nowMs := 0
    api := fun a => if a = "x" then .error "api down" else .ok snapA
    rpcUnderAuth := fun a => if a = "x" then .ok snapA else .error "rpc down" }

/-! ## Theorems -/

/-- C3: if the lock directory exists with a readable owner record whose
process is not alive, `acquireAuthLock` succeeds without `force`: the stale
lock is removed, the retried atomic directory creation succeeds, the caller's
own owner record is written, and a handle for it is returned. -/
theorem C3_stale_lock_reclaimed (probe : Nat → KillProbe) (selfPid : Nat)
    (nowIso account : String) (st : LockState) (f : OwnerFile) (o : AuthLockOwner)
    (hdir : st.lockDir = some f) (hown : readOwner f = some o)
    (hdead : isPidRunning probe o.pid = false) :
    acquireAuthLock probe selfPid nowIso ⟨account, false⟩ st =
      .acquired ⟨selfPid, nowIso, account⟩
        ⟨some (.record (some selfPid) (some nowIso) (some account))⟩ := by
  simp [acquireAuthLock, hdir, hown, hdead]

/-- Witness for C3 at a concrete stale lock. -/
theorem C3_stale_lock_reclaimed_witness :
    acquireAuthLock probeDead 7 "now" ⟨"alice", false⟩
        ⟨some (.record (some 99) (some "old") (some "bob"))⟩ =
      .acquired ⟨7, "now", "alice"⟩
        ⟨some (.record (some 7) (some "now") (some "alice"))⟩ :=
  C3_stale_lock_reclaimed probeDead 7 "now" "alice" _ _ ⟨99, "old", "bob"⟩ rfl rfl rfl

/-- C4: if the lock directory exists, its readable owner is alive and `force`
is false, `acquireAuthLock` throws the `Locked` error naming the owner's
account, pid and start time, and leaves the lock state untouched. -/
theorem C4_live_lock_blocks (probe : Nat → KillProbe) (selfPid : Nat)
    (nowIso account : String) (st : LockState) (f : OwnerFile) (o : AuthLockOwner)
    (hdir : st.lockDir = some f) (hown : readOwner f = some o)
    (halive : isPidRunning probe o.pid = true) :
    acquireAuthLock probe selfPid nowIso ⟨account, false⟩ st =
      .locked (lockedMessage (some o)) st
    ∧ lockedMessage (some o) =
      "Auth swap is locked by " ++
        (o.account ++ " (pid " ++ toString o.pid ++ ", started " ++ o.startedAt ++ ")") ++
        ". Close the other multicodex-managed Codex session or run again with --force." := by
  refine ⟨?_, rfl⟩
  simp [acquireAuthLock, hdir, hown, halive]

/-- Witness for C4 at a concrete live lock. -/
theorem C4_live_lock_blocks_witness :
    acquireAuthLock probeAlive 7 "now" ⟨"alice", false⟩
        ⟨some (.record (some 99) (some "old") (some "bob"))⟩ =
      .locked (lockedMessage (some ⟨99, "old", "bob"⟩))
        ⟨some (.record (some 99) (some "old") (some "bob"))⟩
    ∧ lockedMessage (some ⟨99, "old", "bob"⟩) =
      "Auth swap is locked by " ++
        ("bob" ++ " (pid " ++ toString 99 ++ ", started " ++ "old" ++ ")") ++
        ". Close the other multicodex-managed Codex session or run again with --force." :=
  C4_live_lock_blocks probeAlive 7 "now" "alice" _ _ ⟨99, "old", "bob"⟩ rfl rfl rfl

/-- C10: if the lock directory exists but its owner record is missing,
unparseable or lacks one of the required fields (`readOwner` yields
`undefined`), then a forceless `acquireAuthLock` always throws the `Locked`
error naming "unknown owner" and leaves the lock in place — for every
liveness oracle, so in particular even when the process that created the
lock is no longer alive (the stale-reclamation branch requires a readable
record and is never reached). -/
theorem C10_unreadable_owner_blocks (probe : Nat → KillProbe) (selfPid : Nat)
    (nowIso account : String) (st : LockState) (f : OwnerFile)
    (hdir : st.lockDir = some f) (hown : readOwner f = none) :
    acquireAuthLock probe selfPid nowIso ⟨account, false⟩ st =
      .locked (lockedMessage none) st
    ∧ lockedMessage none =
      "Auth swap is locked by " ++ "unknown owner" ++
        ". Close the other multicodex-managed Codex session or run again with --force." := by
  refine ⟨?_, rfl⟩
  simp [acquireAuthLock, hdir, hown]

/-- Witness for C10 at a lock whose owner record lacks a numeric pid, with an
oracle under which every process is dead. -/
theorem C10_unreadable_owner_blocks_witness :
    acquireAuthLock probeDead 7 "now" ⟨"alice", false⟩
        ⟨some (.record none (some "old") (some "bob"))⟩ =
      .locked (lockedMessage none) ⟨some (.record none (some "old") (some "bob"))⟩
    ∧ lockedMessage none =
      "Auth swap is locked by " ++ "unknown owner" ++
        ". Close the other multicodex-managed Codex session or run again with --force." :=
  C10_unreadable_owner_blocks probeDead 7 "now" "alice" _ _ rfl rfl

/-- C9: with header `x-codex-primary-used-percent: 25` and body
`rate_limit.primary_window.used_percent: 10`, the parsed snapshot's primary
used-percent is 25 — the header wins; with no header, the same body parses to
10, so the precedence is what decides. -/
theorem C9_headers_win :
    (parseUsageSnapshotFromWhamResponse c9Headers c9Data 0).primary.bind
        (fun w => w.usedPercent) = some 25
    ∧ (parseUsageSnapshotFromWhamResponse [] c9Data 0).primary.bind
        (fun w => w.usedPercent) = some 10 := by
  constructor <;> rfl

/-- C5: on a 401/403 usage response the client refreshes once and retries
exactly once; a second 401/403 after the retry is terminal with the "log in
again" error and no further refresh or retry. Three complete runs, each with
surplus scripted responses left on both endpoints so the final call counters
prove that no further usage request or refresh was issued: (1) 401 then 200 —
the result is the parse of the 200 response, two usage calls, exactly one
refresh; (2) 401 then 401 — terminal error, two usage calls, one refresh;
(3) 403 then 403 — likewise. -/
theorem C5_refresh_retry_once :
    (fetchRateLimitsViaApiForAuthState 0 clientStRetryOk).1 =
      .ok (parseUsageSnapshotFromWhamResponse c9Headers c9Data 0)
    ∧ (fetchRateLimitsViaApiForAuthState 0 clientStRetryOk).2.usageCalls = 2
    ∧ (fetchRateLimitsViaApiForAuthState 0 clientStRetryOk).2.refreshCalls = 1
    ∧ (fetchRateLimitsViaApiForAuthState 0 clientStRetry401).1 =
      .error "Token expired. Run `codex` to log in again."
    ∧ (fetchRateLimitsViaApiForAuthState 0 clientStRetry401).2.usageCalls = 2
    ∧ (fetchRateLimitsViaApiForAuthState 0 clientStRetry401).2.refreshCalls = 1
    ∧ (fetchRateLimitsViaApiForAuthState 0 clientStRetry403).1 =
      .error "Token expired. Run `codex` to log in again."
    ∧ (fetchRateLimitsViaApiForAuthState 0 clientStRetry403).2.usageCalls = 2
    ∧ (fetchRateLimitsViaApiForAuthState 0 clientStRetry403).2.refreshCalls = 1 :=
  ⟨rfl, rfl, rfl, rfl, rfl, rfl, rfl, rfl, rfl⟩

/-- Acquiring on a free lock always succeeds with this process's record. -/
theorem acquireAuthLock_free (probe : Nat → KillProbe) (selfPid : Nat) (nowIso : String)
    (opts : AcquireAuthLockOptions) (st : LockState) (h : st.lockDir = none) :
    acquireAuthLock probe selfPid nowIso opts st =
      .acquired ⟨selfPid, nowIso, opts.account⟩
        ⟨some (.record (some selfPid) (some nowIso) (some opts.account))⟩ := by
  simp [acquireAuthLock, h]

/-- Run of `withAccountAuth` whose task throws, starting from a free lock:
the error propagates with the file system exactly as the task left it (no
snapshot capture, no restore) and the lock released. -/
theorem withAccountAuth_err {α : Type} (probe : Nat → KillProbe) (selfPid : Nat)
    (nowIso : String) (opts : WithAuthOptions) (task : AuthTask α) (st : SysState)
    (e : String) (fs2 : FsState) (hfree : st.lock.lockDir = none)
    (htask : task (setDefaultAuthFromAccount opts.account st.fs) = (.err e, fs2)) :
    withAccountAuth probe selfPid nowIso opts task st = .taskFailed e ⟨fs2, ⟨none⟩⟩ := by
  unfold withAccountAuth
  rw [acquireAuthLock_free probe selfPid nowIso _ st.lock hfree]
  simp [htask]

/-- Run of `withAccountAuth` whose task returns normally, starting from a
free lock: the active file is captured into the snapshot, then restored to
its pre-call bytes when restoring, and the lock is released. -/
theorem withAccountAuth_ok {α : Type} (probe : Nat → KillProbe) (selfPid : Nat)
    (nowIso : String) (opts : WithAuthOptions) (task : AuthTask α) (st : SysState)
    (v : α) (fs2 : FsState) (hfree : st.lock.lockDir = none)
    (htask : task (setDefaultAuthFromAccount opts.account st.fs) = (.ok v, fs2)) :
    withAccountAuth probe selfPid nowIso opts task st =
      .ok v ⟨(if opts.restorePreviousAuth then
          { snapshotDefaultAuthToAccount opts.account fs2 with activeAuth := st.fs.activeAuth }
        else snapshotDefaultAuthToAccount opts.account fs2), ⟨none⟩⟩ := by
  unfold withAccountAuth
  rw [acquireAuthLock_free probe selfPid nowIso _ st.lock hfree]
  cases hr : opts.restorePreviousAuth <;>
    cases ha : st.fs.activeAuth <;>
      simp [htask, hr, ha]

/-- C1 counterexample: a concrete run in which the task rewrites the active
credential file to `[9]` and then throws. The claim demands that step 5 runs,
leaving the snapshot of `work` equal to the active file's bytes; in fact the
run propagates the task error with the snapshot still holding its old bytes
`[2]` while the active file holds `[9]`, so the claimed capture did not
happen. -/
theorem C1_counterexample :
    (withAccountAuth probeDead 7 "now" ⟨"work", false, false⟩
        taskRefreshThenThrow sysPre).isTaskFailed = true
    ∧ (withAccountAuth probeDead 7 "now" ⟨"work", false, false⟩
        taskRefreshThenThrow sysPre).finalState.fs.activeAuth = some [9]
    ∧ (withAccountAuth probeDead 7 "now" ⟨"work", false, false⟩
        taskRefreshThenThrow sysPre).finalState.fs.snapshots "work" = some [2]
    ∧ ¬ ((withAccountAuth probeDead 7 "now" ⟨"work", false, false⟩
          taskRefreshThenThrow sysPre).finalState.fs.snapshots "work" =
        (withAccountAuth probeDead 7 "now" ⟨"work", false, false⟩
          taskRefreshThenThrow sysPre).finalState.fs.activeAuth) := by
  refine ⟨rfl, rfl, rfl, by decide⟩

/-- C1 as amended: when the task raises, only step 7 is guaranteed — the lock
is released and the error then propagates to the caller, with the file system
exactly as the task left it; the snapshot capture (step 5) and the optional
restore (step 6) run only when the task returns normally, in which case they
execute in order before the release. -/
theorem C1_amended_cleanup {α : Type} (probe : Nat → KillProbe) (selfPid : Nat)
    (nowIso : String) (opts : WithAuthOptions) (task : AuthTask α) (st : SysState)
    (hfree : st.lock.lockDir = none) :
    (∀ e fs2, task (setDefaultAuthFromAccount opts.account st.fs) = (.err e, fs2) →
      withAccountAuth probe selfPid nowIso opts task st = .taskFailed e ⟨fs2, ⟨none⟩⟩)
    ∧ (∀ v fs2, task (setDefaultAuthFromAccount opts.account st.fs) = (.ok v, fs2) →
      withAccountAuth probe selfPid nowIso opts task st =
        .ok v ⟨(if opts.restorePreviousAuth then
            { snapshotDefaultAuthToAccount opts.account fs2 with
                activeAuth := st.fs.activeAuth }
          else snapshotDefaultAuthToAccount opts.account fs2), ⟨none⟩⟩) :=
  ⟨fun e fs2 h => withAccountAuth_err probe selfPid nowIso opts task st e fs2 hfree h,
   fun v fs2 h => withAccountAuth_ok probe selfPid nowIso opts task st v fs2 hfree h⟩

/-- Witness for the amended C1 at the concrete throwing run. -/
theorem C1_amended_cleanup_witness :
    withAccountAuth probeDead 7 "now" ⟨"work", false, false⟩ taskRefreshThenThrow sysPre =
      .taskFailed "boom"
        ⟨{ setDefaultAuthFromAccount "work" sysPre.fs with activeAuth := some [9] }, ⟨none⟩⟩ :=
  (C1_amended_cleanup probeDead 7 "now" ⟨"work", false, false⟩
    taskRefreshThenThrow sysPre rfl).1 "boom" _ rfl

/-- C2 counterexample: a concrete `restorePreviousAuth = true` run whose task
throws. The active file held `[1]` before the call; afterwards it holds the
installed snapshot bytes `[2]` — the restore was skipped, so the file is not
byte-identical to its pre-call state. -/
theorem C2_counterexample :
    sysPre.fs.activeAuth = some [1]
    ∧ (withAccountAuth probeDead 7 "now" ⟨"work", false, true⟩
        taskErrPlain sysPre).isTaskFailed = true
    ∧ ¬ ((withAccountAuth probeDead 7 "now" ⟨"work", false, true⟩
          taskErrPlain sysPre).finalState.fs.activeAuth = sysPre.fs.activeAuth) := by
  refine ⟨rfl, rfl, by decide⟩

/-- C2 as amended: `withAccountAuth` with `restorePreviousAuth = true` leaves
the Active Credential File byte-identical to its pre-call state (absence
preserved as absence) whenever the task returns normally; when the task
throws, the restore is skipped and only the lock release is guaranteed. -/
theorem C2_amended_restore_on_success {α : Type} (probe : Nat → KillProbe)
    (selfPid : Nat) (nowIso account : String) (forceLock : Bool) (task : AuthTask α)
    (st : SysState) (v : α) (fs2 : FsState) (hfree : st.lock.lockDir = none)
    (htask : task (setDefaultAuthFromAccount account st.fs) = (.ok v, fs2)) :
    (withAccountAuth probe selfPid nowIso ⟨account, forceLock, true⟩
        task st).finalState.fs.activeAuth = st.fs.activeAuth := by
  rw [withAccountAuth_ok probe selfPid nowIso ⟨account, forceLock, true⟩ task st v fs2
    hfree htask]
  rfl

/-- Witness for the amended C2 at a concrete normally-returning run. -/
theorem C2_amended_restore_on_success_witness :
    (withAccountAuth probeDead 7 "now" ⟨"work", false, true⟩
        taskOkPlain sysPre).finalState.fs.activeAuth = sysPre.fs.activeAuth :=
  C2_amended_restore_on_success probeDead 7 "now" "work" false taskOkPlain sysPre 0 _
    rfl rfl

/-- C7: importing captures the active file into the account's snapshot
(absence yielding absence), applying reproduces the snapshot back onto the
active file (deleting it when the snapshot is absent), and the composition
leaves the active file byte-identical to its pre-import content. -/
theorem C7_import_apply_roundtrip (probe : Nat → KillProbe) (selfPid : Nat)
    (nowIso account : String) (st : SysState) (hfree : st.lock.lockDir = none) :
    importDefaultAuthToAccount probe selfPid nowIso account false st =
      .ok ⟨snapshotDefaultAuthToAccount account st.fs, ⟨none⟩⟩
    ∧ (snapshotDefaultAuthToAccount account st.fs).snapshots account = st.fs.activeAuth
    ∧ applyAccountAuthToDefault probe selfPid nowIso account false
        ⟨snapshotDefaultAuthToAccount account st.fs, ⟨none⟩⟩ =
      .ok ⟨setDefaultAuthFromAccount account (snapshotDefaultAuthToAccount account st.fs),
        ⟨none⟩⟩
    ∧ (∀ fs : FsState, (setDefaultAuthFromAccount account fs).activeAuth =
        fs.snapshots account)
    ∧ (setDefaultAuthFromAccount account
        (snapshotDefaultAuthToAccount account st.fs)).activeAuth = st.fs.activeAuth := by
  have hsnap : ∀ fs : FsState,
      (snapshotDefaultAuthToAccount account fs).snapshots account = fs.activeAuth := by
    intro fs
    cases h : fs.activeAuth <;>
      simp [snapshotDefaultAuthToAccount, FsState.setSnapshot, h]
  have happly : ∀ fs : FsState,
      (setDefaultAuthFromAccount account fs).activeAuth = fs.snapshots account := by
    intro fs
    cases h : fs.snapshots account <;> simp [setDefaultAuthFromAccount, h]
  refine ⟨?_, hsnap st.fs, ?_, happly, ?_⟩
  · unfold importDefaultAuthToAccount
    rw [acquireAuthLock_free probe selfPid nowIso _ st.lock hfree]
  · unfold applyAccountAuthToDefault
    rw [acquireAuthLock_free probe selfPid nowIso _ _ rfl]
  · rw [happly, hsnap]

/-- Witness for C7 at the concrete pre-state. -/
theorem C7_import_apply_roundtrip_witness :
    importDefaultAuthToAccount probeDead 7 "now" "work" false sysPre =
      .ok ⟨snapshotDefaultAuthToAccount "work" sysPre.fs, ⟨none⟩⟩
    ∧ (snapshotDefaultAuthToAccount "work" sysPre.fs).snapshots "work" =
      sysPre.fs.activeAuth
    ∧ applyAccountAuthToDefault probeDead 7 "now" "work" false
        ⟨snapshotDefaultAuthToAccount "work" sysPre.fs, ⟨none⟩⟩ =
      .ok ⟨setDefaultAuthFromAccount "work" (snapshotDefaultAuthToAccount "work" sysPre.fs),
        ⟨none⟩⟩
    ∧ (∀ fs : FsState, (setDefaultAuthFromAccount "work" fs).activeAuth =
        fs.snapshots "work")
    ∧ (setDefaultAuthFromAccount "work"
        (snapshotDefaultAuthToAccount "work" sysPre.fs)).activeAuth =
      sysPre.fs.activeAuth :=
  C7_import_apply_roundtrip probeDead 7 "now" "work" sysPre rfl

/-- C8: `getCachedLimits` returns the stored snapshot together with its
elapsed age and provider tag exactly when an entry for the account exists and
its age does not exceed the caller's TTL; an entry older than the TTL (or no
entry) yields `null`; and in every case the cache file is left unmodified —
the lookup never deletes or rewrites anything. -/
theorem C8_cache_lookup (file : CacheFile) (account : String) (ttlMs nowMs : Int) :
    (getCachedLimits file account ttlMs nowMs).2 = file
    ∧ (∀ entry, lookupAccount (loadCache file).accounts account = some entry →
        nowMs - entry.fetchedAt ≤ ttlMs →
        (getCachedLimits file account ttlMs nowMs).1 =
          some ⟨entry.snapshot, nowMs - entry.fetchedAt, entry.provider⟩)
    ∧ (∀ entry, lookupAccount (loadCache file).accounts account = some entry →
        nowMs - entry.fetchedAt > ttlMs →
        (getCachedLimits file account ttlMs nowMs).1 = none)
    ∧ (lookupAccount (loadCache file).accounts account = none →
        (getCachedLimits file account ttlMs nowMs).1 = none) := by
  refine ⟨?_, ?_, ?_, ?_⟩
  · simp only [getCachedLimits]
    split
    · rfl
    · split <;> rfl
  · intro entry hentry hage
    simp [getCachedLimits, hentry, not_lt.mpr hage]
  · intro entry hentry hage
    simp [getCachedLimits, hentry, hage]
  · intro hnone
    simp [getCachedLimits, hnone]

/-- Witness for C8: under a 1000 ms TTL the 500 ms old entry is returned with
its age and tag; under a 100 ms TTL the same entry is refused; the file is
untouched. -/
theorem C8_cache_lookup_witness :
    (getCachedLimits file8 "a" 1000 1500).2 = file8
    ∧ (getCachedLimits file8 "a" 1000 1500).1 = some ⟨snapA, 1500 - 1000, some .api⟩
    ∧ (getCachedLimits file8 "a" 100 1500).1 = none :=
  ⟨(C8_cache_lookup file8 "a" 1000 1500).1,
   (C8_cache_lookup file8 "a" 1000 1500).2.1 ⟨snapA, 1000, some .api⟩ rfl (by decide),
   (C8_cache_lookup file8 "a" 100 1500).2.2.1 ⟨snapA, 1000, some .api⟩ rfl (by decide)⟩

/-- One collection step appends exactly the account's optional result
entry. -/
theorem collectOutcome_results (env : LimitsEnv) (provider : LimitsProvider)
    (useCache : Bool) (ttlMs : Int) (acc : LimitsExecution) (account : String) :
    (collectOutcome env provider useCache ttlMs acc account).results =
      acc.results ++ optList (perAccountOutcome env provider useCache ttlMs account).result := by
  simp only [collectOutcome]
  cases h : (perAccountOutcome env provider useCache ttlMs account).result <;>
    simp [h, optList]

/-- One collection step appends exactly the account's optional error
entry. -/
theorem collectOutcome_errors (env : LimitsEnv) (provider : LimitsProvider)
    (useCache : Bool) (ttlMs : Int) (acc : LimitsExecution) (account : String) :
    (collectOutcome env provider useCache ttlMs acc account).errors =
      acc.errors ++ errList account (perAccountOutcome env provider useCache ttlMs account).error := by
  simp only [collectOutcome]
  cases h : (perAccountOutcome env provider useCache ttlMs account).error <;>
    simp [h, errList]

/-- The final collection loop's `results` list is the concatenation of each
requested account's optional result entry, in request order. -/
theorem foldl_collect_results (env : LimitsEnv) (provider : LimitsProvider)
    (useCache : Bool) (ttlMs : Int) (targets : List String) (init : LimitsExecution) :
    (targets.foldl (collectOutcome env provider useCache ttlMs) init).results =
      init.results ++
        (targets.map fun b =>
          optList (perAccountOutcome env provider useCache ttlMs b).result).flatten := by
  induction targets generalizing init with
  | nil => simp
  | cons b rest ih =>
    rw [List.foldl_cons, ih, collectOutcome_results, List.map_cons, List.flatten_cons,
      List.append_assoc]

/-- The final collection loop's `errors` list is the concatenation of each
requested account's optional error entry, in request order. -/
theorem foldl_collect_errors (env : LimitsEnv) (provider : LimitsProvider)
    (useCache : Bool) (ttlMs : Int) (targets : List String) (init : LimitsExecution) :
    (targets.foldl (collectOutcome env provider useCache ttlMs) init).errors =
      init.errors ++
        (targets.map fun b =>
          errList b (perAccountOutcome env provider useCache ttlMs b).error).flatten := by
  induction targets generalizing init with
  | nil => simp
  | cons b rest ih =>
    rw [List.foldl_cons, ih, collectOutcome_errors, List.map_cons, List.flatten_cons,
      List.append_assoc]

/-- Every branch of the per-account computation ends in exactly one of a
result entry (carrying the account's own name, with no error) or an error
(with no result entry). -/
theorem perAccountOutcome_shape (env : LimitsEnv) (provider : LimitsProvider)
    (useCache : Bool) (ttlMs : Int) (account : String) :
    (∃ r, (perAccountOutcome env provider useCache ttlMs account).result = some r
        ∧ r.account = account
        ∧ (perAccountOutcome env provider useCache ttlMs account).error = none)
    ∨ ((perAccountOutcome env provider useCache ttlMs account).result = none
        ∧ ∃ e, (perAccountOutcome env provider useCache ttlMs account).error = some e) := by
  cases provider <;>
    simp only [perAccountOutcome, apiAccountOutcome, rpcAccountOutcome, cachedOutcome] <;>
    (repeat' split) <;>
    first
      | exact Or.inl ⟨_, rfl, rfl, rfl⟩
      | exact Or.inr ⟨rfl, _, rfl⟩
      | simp_all

/-- Filtering an account's own entry list for its name keeps it whole. -/
theorem filter_optList_self (env : LimitsEnv) (provider : LimitsProvider)
    (useCache : Bool) (ttlMs : Int) (account : String) :
    (optList (perAccountOutcome env provider useCache ttlMs account).result).filter
        (fun r => r.account == account) =
      optList (perAccountOutcome env provider useCache ttlMs account).result := by
  rcases perAccountOutcome_shape env provider useCache ttlMs account with
    ⟨r, hr, hacc, -⟩ | ⟨hr, -⟩
  · simp [hr, optList, hacc]
  · simp [hr, optList]

/-- Filtering another account's entry list for this name drops everything. -/
theorem filter_optList_ne (env : LimitsEnv) (provider : LimitsProvider)
    (useCache : Bool) (ttlMs : Int) (b a : String) (hne : b ≠ a) :
    (optList (perAccountOutcome env provider useCache ttlMs b).result).filter
        (fun r => r.account == a) = [] := by
  rcases perAccountOutcome_shape env provider useCache ttlMs b with
    ⟨r, hr, hacc, -⟩ | ⟨hr, -⟩
  · simp [hr, optList, hacc, hne]
  · simp [hr, optList]

/-- Error entries are built with their own account's name, so filtering for
it keeps them. -/
theorem filter_errList_self (a : String) (o : Option String) :
    (errList a o).filter (fun e => e.account == a) = errList a o := by
  cases o <;> simp [errList]

/-- Filtering another account's error list for this name drops everything. -/
theorem filter_errList_ne (b a : String) (hne : b ≠ a) (o : Option String) :
    (errList b o).filter (fun e => e.account == a) = [] := by
  cases o <;> simp [errList, hne]

/-- Accounts not among a request list contribute no result entry for a
name. -/
theorem filter_results_not_mem (env : LimitsEnv) (provider : LimitsProvider)
    (useCache : Bool) (ttlMs : Int) (rest : List String) (a : String) (ha : a ∉ rest) :
    ((rest.map fun b =>
        optList (perAccountOutcome env provider useCache ttlMs b).result).flatten).filter
      (fun r => r.account == a) = [] := by
  induction rest with
  | nil => simp
  | cons b r ih =>
    rw [List.map_cons, List.flatten_cons, List.filter_append]
    have hb : b ≠ a := fun h => ha (h ▸ List.mem_cons_self b r)
    rw [filter_optList_ne env provider useCache ttlMs b a hb, List.nil_append]
    exact ih (fun h => ha (List.mem_cons_of_mem b h))

/-- Accounts not among a request list contribute no error entry for a
name. -/
theorem filter_errors_not_mem (env : LimitsEnv) (provider : LimitsProvider)
    (useCache : Bool) (ttlMs : Int) (rest : List String) (a : String) (ha : a ∉ rest) :
    ((rest.map fun b =>
        errList b (perAccountOutcome env provider useCache ttlMs b).error).flatten).filter
      (fun e => e.account == a) = [] := by
  induction rest with
  | nil => simp
  | cons b r ih =>
    rw [List.map_cons, List.flatten_cons, List.filter_append]
    have hb : b ≠ a := fun h => ha (h ▸ List.mem_cons_self b r)
    rw [filter_errList_ne b a hb, List.nil_append]
    exact ih (fun h => ha (List.mem_cons_of_mem b h))

/-- With no duplicate requests, the result entries filed under a requested
account are exactly its own per-account entry list. -/
theorem filter_results_join (env : LimitsEnv) (provider : LimitsProvider)
    (useCache : Bool) (ttlMs : Int) (targets : List String) (a : String)
    (ha : a ∈ targets) (hnodup : targets.Nodup) :
    ((targets.map fun b =>
        optList (perAccountOutcome env provider useCache ttlMs b).result).flatten).filter
      (fun r => r.account == a) =
      optList (perAccountOutcome env provider useCache ttlMs a).result := by
  induction targets with
  | nil => cases ha
  | cons b rest ih =>
    rw [List.map_cons, List.flatten_cons, List.filter_append]
    rcases List.mem_cons.mp ha with rfl | hmem
    · have hrest : a ∉ rest := (List.nodup_cons.mp hnodup).1
      rw [filter_optList_self,
        filter_results_not_mem env provider useCache ttlMs rest a hrest, List.append_nil]
    · have hb : b ≠ a := by
        rintro rfl
        exact (List.nodup_cons.mp hnodup).1 hmem
      rw [filter_optList_ne env provider useCache ttlMs b a hb, List.nil_append]
      exact ih hmem (List.nodup_cons.mp hnodup).2

/-- With no duplicate requests, the error entries filed under a requested
account are exactly its own per-account error list. -/
theorem filter_errors_join (env : LimitsEnv) (provider : LimitsProvider)
    (useCache : Bool) (ttlMs : Int) (targets : List String) (a : String)
    (ha : a ∈ targets) (hnodup : targets.Nodup) :
    ((targets.map fun b =>
        errList b (perAccountOutcome env provider useCache ttlMs b).error).flatten).filter
      (fun e => e.account == a) =
      errList a (perAccountOutcome env provider useCache ttlMs a).error := by
  induction targets with
  | nil => cases ha
  | cons b rest ih =>
    rw [List.map_cons, List.flatten_cons, List.filter_append]
    rcases List.mem_cons.mp ha with rfl | hmem
    · have hrest : a ∉ rest := (List.nodup_cons.mp hnodup).1
      rw [filter_errList_self,
        filter_errors_not_mem env provider useCache ttlMs rest a hrest, List.append_nil]
    · have hb : b ≠ a := by
        rintro rfl
        exact (List.nodup_cons.mp hnodup).1 hmem
      rw [filter_errList_ne b a hb, List.nil_append]
      exact ih hmem (List.nodup_cons.mp hnodup).2

/-- C6: for every provider preference and every duplicate-free request list,
each requested account's entries in the final result set are exactly the ones
its own per-account computation produces — a function of that account's cache
entry, API fetch and RPC fetch alone, whatever the other accounts' fetches do
— and their total count is exactly one (one result entry or one error entry,
never both, never none). In particular one account's failure never removes
another account from the final result set. -/
theorem C6_one_outcome_per_account (env : LimitsEnv) (provider : LimitsProvider)
    (targets : List String) (useCache : Bool) (ttlMs : Int) (a : String)
    (ha : a ∈ targets) (hnodup : targets.Nodup) :
    ((executeLimitsQuery env provider targets useCache ttlMs).results.filter
        (fun r => r.account == a))
      = optList (perAccountOutcome env provider useCache ttlMs a).result
    ∧ ((executeLimitsQuery env provider targets useCache ttlMs).errors.filter
        (fun e => e.account == a))
      = errList a (perAccountOutcome env provider useCache ttlMs a).error
    ∧ ((executeLimitsQuery env provider targets useCache ttlMs).results.filter
        (fun r => r.account == a)).length
      + ((executeLimitsQuery env provider targets useCache ttlMs).errors.filter
        (fun e => e.account == a)).length = 1 := by
  have hres : (executeLimitsQuery env provider targets useCache ttlMs).results.filter
      (fun r => r.account == a)
      = optList (perAccountOutcome env provider useCache ttlMs a).result := by
    unfold executeLimitsQuery
    rw [foldl_collect_results]
    simpa using filter_results_join env provider useCache ttlMs targets a ha hnodup
  have herr : (executeLimitsQuery env provider targets useCache ttlMs).errors.filter
      (fun e => e.account == a)
      = errList a (perAccountOutcome env provider useCache ttlMs a).error := by
    unfold executeLimitsQuery
    rw [foldl_collect_errors]
    simpa using filter_errors_join env provider useCache ttlMs targets a ha hnodup
  refine ⟨hres, herr, ?_⟩
  rw [hres, herr]
  rcases perAccountOutcome_shape env provider useCache ttlMs a with
    ⟨r, hr, -, he⟩ | ⟨hr, e, he⟩ <;>
    simp [hr, he, optList, errList]

/-- Witness for C6: in `auto` mode with accounts `x` (API fails, RPC
succeeds) and `y` (API succeeds), account `x` still receives exactly one
outcome. -/
theorem C6_one_outcome_per_account_witness :
    ((executeLimitsQuery env0 .auto ["x", "y"] false 0).results.filter
        (fun r => r.account == "x"))
      = optList (perAccountOutcome env0 .auto false 0 "x").result
    ∧ ((executeLimitsQuery env0 .auto ["x", "y"] false 0).errors.filter
        (fun e => e.account == "x"))
      = errList "x" (perAccountOutcome env0 .auto false 0 "x").error
    ∧ ((executeLimitsQuery env0 .auto ["x", "y"] false 0).results.filter
        (fun r => r.account == "x")).length
      + ((executeLimitsQuery env0 .auto ["x", "y"] false 0).errors.filter
        (fun e => e.account == "x")).length = 1 :=
  C6_one_outcome_per_account env0 .auto ["x", "y"] false 0 "x" (by decide) (by decide)

end Polycodex
